import Mathlib

/-!
Verification of the type-resolution, paginated-fetch and wiki-traversal core of
`scripts/feishu_reader.py` (class `FeishuUnifiedReader`).

Strings are modelled as `List Char`.  External HTTP endpoints are modelled as
oracles: a paginated endpoint is a function from (call index, cursor sent) to
the decoded page, and the fallible single-shot calls (`_read_docx`,
`_get_wiki_node_info`, ...) are functions into `Except`, where `Except.error`
models a raised Python exception and `Except.ok` a returned payload.
-/

set_option maxRecDepth 10000

namespace FeishuReader

/-- Python strings are modelled as lists of characters. -/
abbrev Str := List Char

/-! ## TypeResolver: `detect_type` and `_extract_token_from_url` -/

/-- `TYPE_DOCX = "docx"` (feishu_reader.py line 31). -/
def TYPE_DOCX : Str := "docx".toList

/-- `TYPE_DOC = "doc"` (line 32). -/
def TYPE_DOC : Str := "doc".toList

/-- `TYPE_SHEET = "sheet"` (line 33). -/
def TYPE_SHEET : Str := "sheet".toList

/-- `TYPE_BITABLE = "bitable"` (line 34). -/
def TYPE_BITABLE : Str := "bitable".toList

/-- `TYPE_WIKI = "wiki"` (line 35). -/
def TYPE_WIKI : Str := "wiki".toList

/-- `TYPE_FILE = "file"` (line 36). -/
def TYPE_FILE : Str := "file".toList

/-- `TYPE_SLIDES = "slides"` (line 37). -/
def TYPE_SLIDES : Str := "slides".toList

/-- `TOKEN_PREFIXES` (lines 40-48), in Python dict insertion order, which is the
iteration order of `TOKEN_PREFIXES.items()` on line 132. -/
def TOKEN_PREFIXES : List (Str × Str) :=
  [("docx_".toList, TYPE_DOCX),
   ("doc_".toList, TYPE_DOC),
   ("sheet_".toList, TYPE_SHEET),
   ("shtcn".toList, TYPE_SHEET),
   ("base".toList, TYPE_BITABLE),
   ("bascn".toList, TYPE_BITABLE),
   ("wikcn".toList, TYPE_WIKI)]

/-- Python substring containment `p in t`: `p` is a prefix of some suffix of `t`. -/
def containsSub (p : Str) : Str → Bool
  | [] => p.isPrefixOf []
  | c :: rest => p.isPrefixOf (c :: rest) || containsSub p rest

/-- Line 133: `token.startswith(prefix) or prefix in token`. -/
def tokenMatches (p token : Str) : Bool :=
  p.isPrefixOf token || containsSub p token

/-- The loop of lines 132-134: scan the prefix table in order, first match wins. -/
def scanPrefixes : List (Str × Str) → Str → Option Str
  | [], _ => none
  | q :: rest, token => if tokenMatches q.1 token then some q.2 else scanPrefixes rest token

/-- The URL path markers of line 152: `["docx", "doc", "wiki", "sheets", "base", "file"]`. -/
def MARKERS : List Str :=
  ["docx".toList, "doc".toList, "wiki".toList, "sheets".toList, "base".toList, "file".toList]

/-- `part in ["docx", "doc", "wiki", "sheets", "base", "file"]` (line 152). -/
def isMarker (p : Str) : Bool := MARKERS.contains p

/-- Python `s.split("?")[0]` (lines 154 and 159): everything before the first `?`. -/
def stripQuery (s : Str) : Str := s.takeWhile (fun c => !(c == '?'))

/-- Helper for the model of `urllib.parse.urlparse(url).path` (line 142): the part of
the URL after the first `"://"`, if any. -/
def afterSchemeSep : Str → Option Str
  | [] => none
  | c :: rest =>
    if c == ':' && "//".toList.isPrefixOf rest then some (rest.drop 2)
    else afterSchemeSep rest

/-- A path character that ends the path component (query or fragment separator). -/
def pathStopChar (c : Char) : Bool := c == '?' || c == '#'

/-- Model of `urlparse(url).path` (line 142) for the http/https URLs accepted by
`detect_type` (line 126): drop the scheme and authority, stop at `?` or `#`.
`urlparse` is standard-library code, external to the repository. -/
def urlPath (url : Str) : Str :=
  let afterHost : Str :=
    match afterSchemeSep url with
    | some rest => rest.dropWhile (fun c => !(c == '/'))
    | none => url
  afterHost.takeWhile (fun c => !(pathStopChar c))

/-- Python `path.split("/")` (line 143). -/
def splitOnSlash : Str → List Str
  | [] => [[]]
  | c :: rest =>
    if c == '/' then [] :: splitOnSlash rest
    else
      match splitOnSlash rest with
      | s :: ss => (c :: s) :: ss
      | [] => [[c]]

/-- The marker scan of lines 151-154: walk the path parts; at the first marker that
has a following part, return that following part with any query string stripped.
A marker that is the last part is skipped (the `i + 1 < len` guard fails and the
loop moves on). -/
def findMarkerToken : List Str → Option Str
  | [] => none
  | [_] => none
  | p :: t :: rest => if isMarker p then some (stripQuery t) else findMarkerToken (t :: rest)

/-- `_extract_token_from_url` (lines 140-161): marker scan, then fall back to the
last non-empty path part (lines 157-159), then to the whole URL (line 161). -/
def extractTokenFromUrl (url : Str) : Str :=
  let parts := splitOnSlash (urlPath url)
  match findMarkerToken parts with
  | some t => t
  | none =>
    match parts.reverse.find? (fun p => !p.isEmpty) with
    | some p => stripQuery p
    | none => url

/-- `detect_type` (lines 120-138).  The third component models the
`logger.warning` on line 137: `true` exactly when no prefix matched and the
docx default was used. -/
def detectType (tokenOrUrl : Str) : Str × Str × Bool :=
  let token :=
    if "http".toList.isPrefixOf tokenOrUrl then extractTokenFromUrl tokenOrUrl
    else tokenOrUrl
  match scanPrefixes TOKEN_PREFIXES token with
  | some ty => (ty, token, false)
  | none => (TYPE_DOCX, token, true)

/-! ## PagedFetch: the three drain loops -/

/-- One decoded page of a paginated endpoint: `data.get("items", [])`,
`data.get("has_more", False)` and `data.get("page_token")`. -/
structure Page (α : Type) where
  items : List α
  hasMore : Bool
  pageToken : Option Str
deriving DecidableEq

/-- The `if page_token:` guards (lines 232, 423, 567): a cursor is sent on the next
request only when the held value is a non-empty string (Python truthiness). -/
def sentCursor (pt : Option Str) : Option Str :=
  match pt with
  | some t => if t = [] then none else some t
  | none => none

/-- Loop body of `_get_all_blocks` (lines 226-247).  The oracle maps
(call index, cursor sent) to the decoded response; the fuel bounds how many
iterations we are willing to unfold — `none` means the loop has not terminated
within `fuel` calls.  On termination the result carries the accumulated items
and the number of calls made. -/
def getAllBlocksAux (oracle : Nat → Option Str → Page α) :
    Nat → Nat → Option Str → List α → Option (List α × Nat)
  | 0, _, _, _ => none
  | fuel + 1, i, cursor, acc =>
    let data := oracle i cursor
    let acc2 := acc ++ data.items
    if data.hasMore = false then some (acc2, i + 1)
    else getAllBlocksAux oracle fuel (i + 1) (sentCursor data.pageToken) acc2

/-- `_get_all_blocks` (lines 226-247): first call carries no cursor. -/
def getAllBlocks (oracle : Nat → Option Str → Page α) (fuel : Nat) :
    Option (List α × Nat) :=
  getAllBlocksAux oracle fuel 0 none []

/-- Loop body of `_get_all_bitable_records` (lines 416-443).  Identical to the
blocks loop except for the safety check of lines 438-441: after the `has_more`
check and the cursor update, break when the accumulated count strictly exceeds
10000 (the break only logs a warning; the records gathered so far are returned
unchanged). -/
def getAllBitableRecordsAux (oracle : Nat → Option Str → Page α) :
    Nat → Nat → Option Str → List α → Option (List α × Nat)
  | 0, _, _, _ => none
  | fuel + 1, i, cursor, acc =>
    let data := oracle i cursor
    let acc2 := acc ++ data.items
    if data.hasMore = false then some (acc2, i + 1)
    else if acc2.length > 10000 then some (acc2, i + 1)
    else getAllBitableRecordsAux oracle fuel (i + 1) (sentCursor data.pageToken) acc2

/-- `_get_all_bitable_records` (lines 416-443). -/
def getAllBitableRecords (oracle : Nat → Option Str → Page α) (fuel : Nat) :
    Option (List α × Nat) :=
  getAllBitableRecordsAux oracle fuel 0 none []

/-- Loop body of `_get_wiki_space_nodes` (lines 558-582): same shape as the blocks
loop (page size 50, optional parent filter; both are fixed request parameters
captured by the oracle). -/
def getWikiSpaceNodesAux (oracle : Nat → Option Str → Page α) :
    Nat → Nat → Option Str → List α → Option (List α × Nat)
  | 0, _, _, _ => none
  | fuel + 1, i, cursor, acc =>
    let data := oracle i cursor
    let acc2 := acc ++ data.items
    if data.hasMore = false then some (acc2, i + 1)
    else getWikiSpaceNodesAux oracle fuel (i + 1) (sentCursor data.pageToken) acc2

/-- `_get_wiki_space_nodes` (lines 558-582).  `_get_wiki_children`
(lines 508-530) is the same loop with a mandatory parent filter. -/
def getWikiSpaceNodes (oracle : Nat → Option Str → Page α) (fuel : Nat) :
    Option (List α × Nat) :=
  getWikiSpaceNodesAux oracle fuel 0 none []

/-! ## WikiTraversal: `_read_wiki` and `_read_wiki_nodes_recursive` -/

/-- The fields of a wiki node payload that the traversal reads
(`node.get("node_token")`, `node.get("obj_type")`, `node.get("obj_token")`,
`node.get("has_child", False)`, `node_info.get("space_id")`). -/
structure NodeInfo where
  nodeToken : Str
  objType : Str
  objToken : Str
  hasChild : Bool
  spaceId : Str
deriving DecidableEq

/-- A node as returned by `_read_wiki_nodes_recursive`: the original node dict
plus the optional keys the traversal may merge in — `content` (lines 596-601),
`content_error` (line 603), `children` (line 609), `children_error` (line 611).
A `none` field models an absent dict key. -/
inductive OutNode (γ : Type) : Type where
  | mk (info : NodeInfo) (content : Option γ) (contentFail : Option Str)
      (children : Option (List (OutNode γ))) (childrenFail : Option Str) : OutNode γ

/-- The node dict carried by an output node. -/
def OutNode.info : OutNode γ → NodeInfo
  | .mk i _ _ _ _ => i

/-- The `content` key, if present. -/
def OutNode.content : OutNode γ → Option γ
  | .mk _ c _ _ _ => c

/-- The `content_error` key, if present. -/
def OutNode.contentFail : OutNode γ → Option Str
  | .mk _ _ ce _ _ => ce

/-- The `children` key, if present. -/
def OutNode.children : OutNode γ → Option (List (OutNode γ))
  | .mk _ _ _ ch _ => ch

/-- The `children_error` key, if present. -/
def OutNode.childrenFail : OutNode γ → Option Str
  | .mk _ _ _ _ che => che

/-- The external collaborators of the wiki traversal, one field per method the
traversal calls.  `γ` is the content payload produced by the three concrete
readers.  An `Except.error e` models the method raising an exception whose
`str` is `e`. -/
structure WikiEnv (γ : Type) where
  readDocx : Str → Except Str γ
  readSheet : Str → Except Str γ
  readBitable : Str → Except Str γ
  getWikiNodeInfo : Str → Except Str NodeInfo
  getWikiChildren : Str → Str → Except Str (List NodeInfo)
  wikiSpaceNodes : Str → Option Str → Except Str (List NodeInfo)

/-- A `try: x = call() except Exception as e: err = str(e)` pattern: the pair
(value assigned, error recorded); exactly one side is `some`. -/
def exceptToPair : Except Str γ → Option γ × Option Str
  | .ok c => (some c, none)
  | .error e => (none, some e)

/-- An input node returned unchanged (no traversal keys merged in), as happens
when `depth > 5` (lines 586-587). -/
def toOut (n : NodeInfo) : OutNode γ :=
  .mk n none none none none

/-- The content dispatch of lines 595-603: `docx`/`doc` both go to `_read_docx`,
`sheet` to `_read_sheet`, `bitable` to `_read_bitable`; any other `obj_type`
has no branch, so neither `content` nor `content_error` is set. -/
def contentPair (env : WikiEnv γ) (node : NodeInfo) : Option γ × Option Str :=
  if node.objType = TYPE_DOCX ∨ node.objType = TYPE_DOC then
    exceptToPair (env.readDocx node.objToken)
  else if node.objType = TYPE_SHEET then
    exceptToPair (env.readSheet node.objToken)
  else if node.objType = TYPE_BITABLE then
    exceptToPair (env.readBitable node.objToken)
  else (none, none)

/-- `_read_wiki_nodes_recursive` (lines 584-613), with the recursion re-indexed
by the remaining depth budget `r = 6 - depth`: the guard `depth > 5` of
line 586 holds exactly when `6 - depth = 0` (truncated subtraction), and each
recursive call at `depth + 1` decrements the budget.  At budget 0 the nodes
are returned unchanged; otherwise each node gets its content resolved
(lines 594-603) and, when `has_child` (line 606), its children fetched and
recursed into (lines 607-609), a fetch failure setting `children_error`
(line 611) instead. -/
def readWikiNodesGo (env : WikiEnv γ) (spaceId : Str) : Nat → List NodeInfo → List (OutNode γ)
  | 0, nodes => nodes.map toOut
  | r + 1, nodes =>
    nodes.map fun node =>
      let c := contentPair env node
      let ch : Option (List (OutNode γ)) × Option Str :=
        if node.hasChild then
          match env.wikiSpaceNodes spaceId (some node.nodeToken) with
          | .ok cs => (some (readWikiNodesGo env spaceId r cs), none)
          | .error e => (none, some e)
        else (none, none)
      .mk node c.1 c.2 ch.1 ch.2

/-- `_read_wiki_nodes_recursive(space_id, nodes, depth)` (lines 584-613). -/
def readWikiNodesRecursive (env : WikiEnv γ) (spaceId : Str) (nodes : List NodeInfo)
    (depth : Nat) : List (OutNode γ) :=
  readWikiNodesGo env spaceId (6 - depth) nodes

/-- The `content` value built by the single-node read `_read_wiki`
(lines 463-484): a reader result, or `{"error": str(e)}` when the reader
raised, or the `{"note": "暂不支持读取类型 ... 的内容"}` placeholder. -/
inductive WikiContent (γ : Type) : Type where
  | payload (c : γ) : WikiContent γ
  | failed (e : Str) : WikiContent γ
  | note (msg : Str) : WikiContent γ
deriving DecidableEq

/-- `_read_wiki` (lines 447-498): fetch the node info, resolve its content by
`obj_type` (an unknown type gets the "not supported" note), then fetch the
children when `has_child` — a child-fetch failure is only logged (line 492)
and leaves `children` as the empty list.  The returned triple models the
result dict `{"node": ..., "content": ..., "children": ...}`. -/
def readWiki (env : WikiEnv γ) (token : Str) :
    Except Str (NodeInfo × WikiContent γ × List NodeInfo) :=
  match env.getWikiNodeInfo token with
  | .error e => .error e
  | .ok node =>
    let content : WikiContent γ :=
      if node.objType = TYPE_DOCX ∨ node.objType = TYPE_DOC then
        match env.readDocx node.objToken with
        | .ok c => .payload c
        | .error e => .failed e
      else if node.objType = TYPE_SHEET then
        match env.readSheet node.objToken with
        | .ok c => .payload c
        | .error e => .failed e
      else if node.objType = TYPE_BITABLE then
        match env.readBitable node.objToken with
        | .ok c => .payload c
        | .error e => .failed e
      else
        .note ("暂不支持读取类型 ".toList ++ node.objType ++ " 的内容".toList)
    let children : List NodeInfo :=
      if node.hasChild then
        match env.getWikiChildren node.spaceId token with
        | .ok cs => cs
        | .error _ => []
      else []
    .ok (node, content, children)

/-! ## The `read` dispatch (lines 163-203) -/

/-- The five concrete readers as `read` sees them (`readers` dict, lines 186-192). -/
structure ReadEnv (γ : Type) where
  readDocx : Str → Except Str γ
  readDoc : Str → Except Str γ
  readSheet : Str → Except Str γ
  readBitable : Str → Except Str γ
  readWikiNode : Str → Except Str γ

/-- `readers.get(detected_type)` (lines 186-194): the dict lookup, in insertion
order of the five keys; any other type yields `none`. -/
def readersLookup (env : ReadEnv γ) (docType : Str) : Option (Str → Except Str γ) :=
  if docType = TYPE_DOCX then some env.readDocx
  else if docType = TYPE_DOC then some env.readDoc
  else if docType = TYPE_SHEET then some env.readSheet
  else if docType = TYPE_BITABLE then some env.readBitable
  else if docType = TYPE_WIKI then some env.readWikiNode
  else none

/-- `read` (lines 163-203): resolve type and token (explicit `doc_type`
overrides detection but a URL is still token-extracted, lines 174-181),
dispatch (a type with no reader raises, line 196), and attach the `_meta`
envelope (lines 199-202) — modelled as the pair (type, token) next to the
reader payload. -/
def read (env : ReadEnv γ) (tokenOrUrl : Str) (docType : Option Str) :
    Except Str (γ × Str × Str) :=
  let dt : Str × Str :=
    match docType with
    | some d =>
      (d, if "http".toList.isPrefixOf tokenOrUrl then extractTokenFromUrl tokenOrUrl
          else tokenOrUrl)
    | none => ((detectType tokenOrUrl).1, (detectType tokenOrUrl).2.1)
  match readersLookup env dt.1 with
  | none => .error ("不支持的文档类型: ".toList ++ dt.1)
  | some rd =>
    match rd dt.2 with
    | .ok result => .ok (result, dt.1, dt.2)
    | .error e => .error e

/-! ## Concrete test scenarios -/

/-- The three-page scenario of the spec: P0 has more pages and a cursor `c`,
P1 has more pages but no cursor, P2 is the last page.  Every page carries one
item so that the item counts are visible. -/
def oracle3 : Nat → Option Str → Page Nat := fun i _ =>
  if i = 0 then ⟨[10], true, some ['c']⟩
  else if i = 1 then ⟨[11], true, none⟩
  else ⟨[12], false, none⟩

/-- An endpoint that always reports further pages and never delivers an item. -/
def foreverOracle : Nat → Option Str → Page Nat := fun _ _ => ⟨[], true, some ['p']⟩

/-- A record endpoint that returns a full page of 500 records on every call and
always reports `has_more = true` (the requested `page_size` is 500, line 422). -/
def oracle500 : Nat → Option Str → Page Nat := fun _ _ =>
  ⟨List.replicate 500 0, true, some ['t']⟩

/-- Node token of the i-th node of the deep wiki chain: a single letter
starting at `a`. -/
def chainTok (i : Nat) : Str := [Char.ofNat (97 + i)]

/-- The i-th node of the deep chain: a docx-backed node declaring `has_child = true`. -/
def chainNode (i : Nat) : NodeInfo :=
  ⟨chainTok i, TYPE_DOCX, chainTok i, true, "sp".toList⟩

/-- The child listing of the chain: node `i` has the single child `i + 1`
(defined for parents `a` through `g`, so the chain has depth at least 8). -/
def chainChildren : Option Str → List NodeInfo
  | some [c] => if 97 ≤ c.toNat && c.toNat ≤ 103 then [chainNode (c.toNat - 96)] else []
  | _ => []

/-- Environment for the deep chain: every content read succeeds, every child
listing follows `chainChildren`. -/
def chainEnv : WikiEnv Unit :=
  ⟨fun _ => .ok (), fun _ => .ok (), fun _ => .ok (),
   fun _ => .error [], fun _ _ => .ok [],
   fun _ p => .ok (chainChildren p)⟩

/-- The traversal result expected on the chain with `r` levels of budget left,
starting at node `i`: content resolved and one child expanded per level, and
the node reached when the budget hits 0 returned with no keys merged in. -/
def chainOutAux : Nat → Nat → OutNode Unit
  | 0, i => .mk (chainNode i) none none none none
  | r + 1, i => .mk (chainNode i) (some ()) none (some [chainOutAux r (i + 1)]) none

/-- Three docx root nodes without children; only the middle token `d2` fails. -/
def c4Node (t : Str) : NodeInfo := ⟨t, TYPE_DOCX, t, false, "sp".toList⟩

/-- Environment in which reading token `d2` raises and every other read succeeds. -/
def c4Env : WikiEnv Unit :=
  ⟨fun t => if t = "d2".toList then .error "boom".toList else .ok (),
   fun _ => .ok (), fun _ => .ok (),
   fun _ => .error [], fun _ _ => .ok [],
   fun _ _ => .ok []⟩

/-- A docx wiki node that declares a child. -/
def c5Node : NodeInfo := ⟨"n1".toList, TYPE_DOCX, "d1".toList, true, "sp".toList⟩

/-- Environment in which the node lookup and the content read succeed but every
child listing raises. -/
def c5Env : WikiEnv Unit :=
  ⟨fun _ => .ok (), fun _ => .ok (), fun _ => .ok (),
   fun _ => .ok c5Node,
   fun _ _ => .error "boom".toList,
   fun _ _ => .error "boom".toList⟩

/-- Two docx root nodes with children; the child listing under parent `n2`
raises, the one under `n1` returns no children. -/
def c5RecNode (t : Str) : NodeInfo := ⟨t, TYPE_DOCX, t, true, "sp".toList⟩

/-- Environment for the recursive-traversal side of the children-failure claim. -/
def c5RecEnv : WikiEnv Unit :=
  ⟨fun _ => .ok (), fun _ => .ok (), fun _ => .ok (),
   fun _ => .error [], fun _ _ => .ok [],
   fun _ p => if p = some "n2".toList then .error "boom".toList else .ok []⟩

/-- A reader environment in which every concrete reader succeeds. -/
def trivialReadEnv : ReadEnv Unit :=
  ⟨fun _ => .ok (), fun _ => .ok (), fun _ => .ok (), fun _ => .ok (), fun _ => .ok ()⟩

/-- A wiki node wrapping a slides resource (no concrete reader exists for it). -/
def slidesNode : NodeInfo :=
  ⟨"n1".toList, TYPE_SLIDES, "s1".toList, false, "sp".toList⟩

/-- Environment whose node lookup returns the slides-backed node. -/
def slidesEnv : WikiEnv Unit :=
  ⟨fun _ => .ok (), fun _ => .ok (), fun _ => .ok (),
   fun _ => .ok slidesNode, fun _ _ => .ok [], fun _ _ => .ok []⟩

/-- The mutual-exclusion invariant on one traversal output node, holding
hereditarily through the expanded children: `content` and `content_error`
never both present, and `children` and `children_error` never both present. -/
inductive NodeExcl {γ : Type} : OutNode γ → Prop where
  | intro (info : NodeInfo) (c : Option γ) (ce : Option Str)
      (ch : Option (List (OutNode γ))) (che : Option Str)
      (hc : c = none ∨ ce = none) (hch : ch = none ∨ che = none)
      (hrec : ∀ cs, ch = some cs → ∀ x ∈ cs, NodeExcl x) :
      NodeExcl (OutNode.mk info c ce ch che)

/-! ## General helper lemmas -/

/-- `takeWhile` keeps a list all of whose elements satisfy the predicate. -/
theorem takeWhile_all (p : Char → Bool) (t : Str) (h : ∀ c ∈ t, p c = true) :
    t.takeWhile p = t :=
  List.takeWhile_eq_self_iff.mpr h

/-- Splitting a slash-free string on `/` yields the single-part list. -/
theorem splitOnSlash_no_slash (t : Str) (h : ∀ c ∈ t, ¬ c = '/') : splitOnSlash t = [t] := by
  induction t with
  | nil => rfl
  | cons c rest ih =>
    have hb : (c == '/') = false := by
      simpa using h c (by simp)
    simp [splitOnSlash, hb, ih (fun x hx => h x (by simp [hx]))]

/-- The marker scan returns the part after the first marker, past any marker-free
parts preceding it. -/
theorem findMarkerToken_skip (pre : List Str) (m t : Str) (rest : List Str)
    (hm : isMarker m = true) (hpre : ∀ p ∈ pre, isMarker p = false) :
    findMarkerToken (pre ++ m :: t :: rest) = some (stripQuery t) := by
  induction pre with
  | nil => simp [findMarkerToken, hm]
  | cons p pre ih =>
    have hp : isMarker p = false := hpre p (by simp)
    cases pre with
    | nil => simp [findMarkerToken, hp, hm]
    | cons q pre' =>
      have h2 : (p :: (q :: pre') ++ m :: t :: rest) = p :: q :: (pre' ++ m :: t :: rest) := by
        simp
      rw [h2, findMarkerToken, if_neg (by simp [hp])]
      exact ih (fun x hx => hpre x (by simp [hx]))

/-- The marker scan finds nothing in a marker-free part list. -/
theorem findMarkerToken_none (parts : List Str) (h : ∀ p ∈ parts, isMarker p = false) :
    findMarkerToken parts = none := by
  induction parts with
  | nil => rfl
  | cons p rest ih =>
    cases rest with
    | nil => rfl
    | cons q rest' =>
      rw [findMarkerToken, if_neg (by simp [h p (by simp)])]
      exact ih (fun x hx => h x (by simp [hx]))

/-- `find?` past a run of non-matching elements hits the first matching one. -/
theorem find?_skip (p : Str → Bool) (l1 : List Str) (x : Str) (l2 : List Str)
    (h1 : ∀ y ∈ l1, p y = false) (hx : p x = true) :
    (l1 ++ x :: l2).find? p = some x := by
  induction l1 with
  | nil => simp [List.find?, hx]
  | cons a l1 ih =>
    rw [List.cons_append, List.find?, h1 a (by simp)]
    exact ih (fun y hy => h1 y (by simp [hy]))

/-- The prefix scan returns the type of the first matching table entry. -/
theorem scanPrefixes_first (token : Str) (pre : List (Str × Str)) (p : Str) (ty : Str)
    (post : List (Str × Str)) (hpre : ∀ q ∈ pre, tokenMatches q.1 token = false)
    (hp : tokenMatches p token = true) :
    scanPrefixes (pre ++ (p, ty) :: post) token = some ty := by
  induction pre with
  | nil => simp [scanPrefixes, hp]
  | cons q pre ih =>
    rw [List.cons_append, scanPrefixes, hpre q (by simp)]
    simp only [Bool.false_eq_true, if_false]
    exact ih (fun x hx => hpre x (by simp [hx]))

/-- The prefix scan fails on a token matched by no table entry. -/
theorem scanPrefixes_no_match (token : Str) (L : List (Str × Str))
    (h : ∀ q ∈ L, tokenMatches q.1 token = false) :
    scanPrefixes L token = none := by
  induction L with
  | nil => rfl
  | cons q L ih =>
    rw [scanPrefixes, h q (by simp)]
    simp only [Bool.false_eq_true, if_false]
    exact ih (fun x hx => h x (by simp [hx]))

/-- A caught call never records both a value and an error. -/
theorem exceptToPair_excl (x : Except Str γ) :
    (exceptToPair x).1 = none ∨ (exceptToPair x).2 = none := by
  cases x <;> simp [exceptToPair]

/-- The content dispatch never records both `content` and `content_error`. -/
theorem contentPair_excl (env : WikiEnv γ) (n : NodeInfo) :
    (contentPair env n).1 = none ∨ (contentPair env n).2 = none := by
  unfold contentPair
  split
  · exact exceptToPair_excl _
  · split
    · exact exceptToPair_excl _
    · split
      · exact exceptToPair_excl _
      · simp

/-- Every node in a traversal result satisfies the exclusivity invariant. -/
theorem go_excl (env : WikiEnv γ) (sp : Str) :
    ∀ (r : Nat) (nodes : List NodeInfo), ∀ x ∈ readWikiNodesGo env sp r nodes, NodeExcl x := by
  intro r
  induction r with
  | zero =>
    intro nodes x hx
    simp only [readWikiNodesGo] at hx
    obtain ⟨n, _, rfl⟩ := List.mem_map.mp hx
    exact .intro n none none none none (Or.inl rfl) (Or.inl rfl)
      (by intro cs h; cases h)
  | succ r ih =>
    intro nodes x hx
    simp only [readWikiNodesGo] at hx
    obtain ⟨n, _, rfl⟩ := List.mem_map.mp hx
    by_cases hch : n.hasChild
    · simp only [hch, if_true] at *
      cases hw : env.wikiSpaceNodes sp (some n.nodeToken) with
      | ok cs =>
        simp only [hw]
        exact .intro n _ _ _ _ (contentPair_excl env n) (Or.inr rfl)
          (by intro cs' h x hx
              obtain rfl : cs' = readWikiNodesGo env sp r cs := by
                injection h with h'
                exact h'.symm
              exact ih cs x hx)
      | error e =>
        simp only [hw]
        exact .intro n _ _ _ _ (contentPair_excl env n) (Or.inl rfl)
          (by intro cs h; cases h)
    · simp only [hch, if_false]
      exact .intro n _ _ _ _ (contentPair_excl env n) (Or.inl rfl)
        (by intro cs h; cases h)

/-- The blocks drain never terminates against the always-more endpoint. -/
theorem forever_blocks : ∀ (fuel i : Nat) (c : Option Str) (acc : List Nat),
    getAllBlocksAux foreverOracle fuel i c acc = none := by
  intro fuel
  induction fuel with
  | zero => intro i c acc; rfl
  | succ f ih =>
    intro i c acc
    simp only [getAllBlocksAux, foreverOracle]
    rw [if_neg (by simp)]
    exact ih (i + 1) _ _

/-- The wiki node drain never terminates against the always-more endpoint. -/
theorem forever_wiki : ∀ (fuel i : Nat) (c : Option Str) (acc : List Nat),
    getWikiSpaceNodesAux foreverOracle fuel i c acc = none := by
  intro fuel
  induction fuel with
  | zero => intro i c acc; rfl
  | succ f ih =>
    intro i c acc
    simp only [getWikiSpaceNodesAux, foreverOracle]
    rw [if_neg (by simp)]
    exact ih (i + 1) _ _

/-- Exact run of the record drain against full 500-item pages: starting from `n`
accumulated records with `m` more full pages until the total 10500 is reached,
the loop returns all 10500 records after `m` further calls. -/
theorem oracle500_drain : ∀ (m i : Nat) (c : Option Str) (fuel : Nat) (n : Nat),
    n + 500 * m = 10500 → n ≤ 10000 → m ≤ fuel →
    getAllBitableRecordsAux oracle500 fuel i c (List.replicate n (0 : Nat)) =
      some (List.replicate 10500 0, i + m) := by
  intro m
  induction m with
  | zero => intro i c fuel n h1 h2 _; omega
  | succ m ih =>
    intro i c fuel n h1 h2 hf
    obtain ⟨f, rfl⟩ : ∃ f, fuel = f + 1 := ⟨fuel - 1, by omega⟩
    simp only [getAllBitableRecordsAux, oracle500, ← List.replicate_add,
      List.length_replicate]
    rw [if_neg (by simp : ¬ (true = false))]
    by_cases hcap : n + 500 > 10000
    · rw [if_pos hcap]
      have hm : m = 0 := by omega
      have hn : n + 500 = 10500 := by omega
      rw [hn, hm]
    · rw [if_neg hcap]
      rw [show sentCursor (some ['t']) = some ['t'] from rfl]
      rw [ih (i + 1) (some ['t']) f (n + 500) (by omega) (by omega) (by omega)]
      have h : i + 1 + m = i + (m + 1) := by omega
      rw [h]

/-- Length bound carried through the record drain: with pages of at most 500
items and at most 10000 records already accumulated, any result has at most
10500 records. -/
theorem records_aux_bound (oracle : Nat → Option Str → Page α)
    (hsz : ∀ i c, ((oracle i c).items).length ≤ 500) :
    ∀ (fuel i : Nat) (c : Option Str) (acc : List α) (res : List α × Nat),
      acc.length ≤ 10000 →
      getAllBitableRecordsAux oracle fuel i c acc = some res → res.1.length ≤ 10500 := by
  intro fuel
  induction fuel with
  | zero =>
    intro i c acc res _ h
    exact absurd h (by simp [getAllBitableRecordsAux])
  | succ f ih =>
    intro i c acc res hacc h
    simp only [getAllBitableRecordsAux] at h
    by_cases hm : (oracle i c).hasMore = false
    · rw [if_pos hm] at h
      injection h with h'
      subst h'
      have := hsz i c
      simp only [List.length_append]
      omega
    · rw [if_neg hm] at h
      by_cases hcap : (acc ++ (oracle i c).items).length > 10000
      · rw [if_pos hcap] at h
        injection h with h'
        subst h'
        have := hsz i c
        simp only [List.length_append] at *
        omega
      · rw [if_neg hcap] at h
        exact ih (i + 1) _ _ res (by omega) h

/-! ## Claim theorems -/

/-- Claim C1, counterexample.  Against the page sequence
[P0 (has_more, cursor c), P1 (has_more, cursor absent), P2 (last)] the blocks
drain does terminate in 3 calls, but it consumes P2 as well, so the result has
3 items — more than the `P0.items + P1.items = 2` bound the claim states (the
loop has no "has_more but no cursor" stop).  Moreover an endpoint that always
reports `has_more = true` keeps both the blocks drain and the wiki node drain
running: 100 calls do not finish (the amended theorem shows no fuel ever
suffices). -/
theorem blocks_wiki_drain_counterexample :
    getAllBlocks oracle3 10 = some ([10, 11, 12], 3)
    ∧ ¬ ([10, 11, 12].length ≤ [10].length + [11].length)
    ∧ getAllBlocks foreverOracle 100 = none
    ∧ getWikiSpaceNodes foreverOracle 100 = none :=
  ⟨by decide, by decide, by decide, by decide⟩

/-- Claim C1, amended.  Against the sequence [P0 (has_more, cursor c1),
P1 (has_more, no cursor), P2 (has_more false)] the block and wiki-node drains
terminate after exactly 3 calls and return `P0.items ++ P1.items ++ P2.items`:
an absent cursor does not stop the loop — the next request is simply issued
without a cursor — so termination rests solely on a response with
`has_more = false`; an endpoint that always reports `has_more = true` loops
forever (no fuel yields a result). -/
theorem blocks_wiki_drain_amended (oracle : Nat → Option Str → Page α)
    (xs0 xs1 xs2 : List α) (c1 : Str) (pt2 : Option Str) (hc : ¬ c1 = [])
    (h0 : oracle 0 none = ⟨xs0, true, some c1⟩)
    (h1 : oracle 1 (some c1) = ⟨xs1, true, none⟩)
    (h2 : oracle 2 none = ⟨xs2, false, pt2⟩) (fuel : Nat) :
    (getAllBlocks oracle (fuel + 3) = some (xs0 ++ xs1 ++ xs2, 3)
      ∧ getWikiSpaceNodes oracle (fuel + 3) = some (xs0 ++ xs1 ++ xs2, 3))
    ∧ (getAllBlocks foreverOracle fuel = none
      ∧ getWikiSpaceNodes foreverOracle fuel = none) := by
  refine ⟨⟨?_, ?_⟩, forever_blocks fuel 0 none [], forever_wiki fuel 0 none []⟩
  · show getAllBlocksAux oracle (fuel + 2 + 1) 0 none [] = _
    simp only [getAllBlocksAux, h0, h1, h2, sentCursor, if_neg hc]
    simp
  · show getWikiSpaceNodesAux oracle (fuel + 2 + 1) 0 none [] = _
    simp only [getWikiSpaceNodesAux, h0, h1, h2, sentCursor, if_neg hc]
    simp

/-- Witness for the amended C1 theorem at the concrete three-page sequence. -/
theorem blocks_wiki_drain_amended_witness :
    (getAllBlocks oracle3 3 = some ([10] ++ [11] ++ [12], 3)
      ∧ getWikiSpaceNodes oracle3 3 = some ([10] ++ [11] ++ [12], 3))
    ∧ (getAllBlocks foreverOracle 0 = none
      ∧ getWikiSpaceNodes foreverOracle 0 = none) :=
  blocks_wiki_drain_amended oracle3 [10] [11] [12] ['c'] none (by decide) rfl rfl rfl 0

/-- Claim C2, counterexample.  Against a record endpoint that always reports
`has_more = true` with full 500-item pages, the drain stops only once the
accumulated count strictly exceeds 10000: after 21 calls it returns 10500
records, exceeding the claimed 10000-item bound (and the returned value is a
bare record list — nothing in it marks truncation; the source only logs a
warning). -/
theorem records_cap_counterexample :
    (getAllBitableRecords oracle500 30).map (fun r => (r.1.length, r.2)) = some (10500, 21)
    ∧ 10000 < 10500 := by
  constructor
  · have h := oracle500_drain 21 0 none 30 0 (by omega) (by omega) (by omega)
    rw [show getAllBitableRecords oracle500 30
        = getAllBitableRecordsAux oracle500 30 0 none (List.replicate 0 (0 : Nat)) from rfl]
    rw [h]
    simp only [Option.map_some', List.length_replicate]
  · omega

/-- Claim C2, amended.  The record drain stops after the first page that pushes
the accumulated total strictly above 10000, so with pages of at most the
requested `page_size = 500` items any result it returns holds at most
10500 records (the cap plus one page); the stop is silent — no error is
raised and no truncation mark is attached to the returned list. -/
theorem records_cap_amended (oracle : Nat → Option Str → Page α)
    (hsz : ∀ i c, ((oracle i c).items).length ≤ 500) (fuel : Nat) (res : List α × Nat)
    (h : getAllBitableRecords oracle fuel = some res) : res.1.length ≤ 10500 :=
  records_aux_bound oracle hsz fuel 0 none [] res (by simp) h

/-- Witness for the amended C2 theorem at the full-pages endpoint. -/
theorem records_cap_amended_witness : (List.replicate 10500 (0 : Nat), 21).1.length ≤ 10500 :=
  records_cap_amended oracle500 (fun i c => by simp [oracle500]) 30
    (List.replicate 10500 0, 21)
    (by rw [show getAllBitableRecords oracle500 30
          = getAllBitableRecordsAux oracle500 30 0 none (List.replicate 0 (0 : Nat)) from rfl]
        exact oracle500_drain 21 0 none 30 0 (by omega) (by omega) (by omega))

/-- Claim C3.  On the chain of depth 8 (nodes `a` … `h`, each declaring
`has_child = true`, each wrapping a readable docx resource), the recursive
traversal started at depth 0 resolves content and expands the single child at
depths 0 through 5 (`chainOutAux (r+1) i` carries `content = some ()` and an
expanded `children` list), and the depth-6 node is returned inside its
parent's child list with no content, no children and no error keys
(`chainOutAux 0 6` has all four optional fields `none`); nodes below depth 6
are never fetched and no error is raised — the function is total and returns
the value shown. -/
theorem wiki_depth_limit :
    readWikiNodesRecursive chainEnv "sp".toList [chainNode 0] 0 = [chainOutAux 6 0] := rfl

/-- Claim C4.  Three docx root nodes; the reader fails exactly on the middle
node's token.  The traversal returns the three nodes in order: the middle one
carries `content_error` with the failure message and no content, its two
siblings carry resolved content and no error — the failure is isolated to the
failing node. -/
theorem wiki_content_fail_isolated (env : WikiEnv γ) (sp : Str)
    (n1 n2 n3 : NodeInfo) (c1 c3 : γ) (e : Str)
    (h1t : n1.objType = TYPE_DOCX) (h2t : n2.objType = TYPE_DOCX) (h3t : n3.objType = TYPE_DOCX)
    (h1c : n1.hasChild = false) (h2c : n2.hasChild = false) (h3c : n3.hasChild = false)
    (hr1 : env.readDocx n1.objToken = .ok c1)
    (hr2 : env.readDocx n2.objToken = .error e)
    (hr3 : env.readDocx n3.objToken = .ok c3) :
    readWikiNodesRecursive env sp [n1, n2, n3] 0 =
      [OutNode.mk n1 (some c1) none none none,
       OutNode.mk n2 none (some e) none none,
       OutNode.mk n3 (some c3) none none none] := by
  show readWikiNodesGo env sp (5 + 1) [n1, n2, n3] = _
  simp only [readWikiNodesGo, List.map, contentPair, h1t, h2t, h3t, h1c, h2c, h3c,
    exceptToPair, hr1, hr2, hr3]
  simp

/-- Witness for C4: the three-node scenario with tokens `d1`, `d2`, `d3` where
only `d2` fails. -/
theorem wiki_content_fail_isolated_witness :
    readWikiNodesRecursive c4Env "sp".toList
      [c4Node "d1".toList, c4Node "d2".toList, c4Node "d3".toList] 0 =
      [OutNode.mk (c4Node "d1".toList) (some ()) none none none,
       OutNode.mk (c4Node "d2".toList) none (some "boom".toList) none none,
       OutNode.mk (c4Node "d3".toList) (some ()) none none none] :=
  wiki_content_fail_isolated c4Env "sp".toList
    (c4Node "d1".toList) (c4Node "d2".toList) (c4Node "d3".toList) () () "boom".toList
    rfl rfl rfl rfl rfl rfl rfl rfl rfl

/-- Claim C5, counterexample.  In the single-node read `_read_wiki`, a node
with `has_child = true` whose child-list fetch raises is NOT annotated with
`children_error`: the failure is only logged and the result is returned with
`children` equal to the empty list and no error key anywhere — the result
shape has no `children_error` field at all. -/
theorem wiki_children_fail_counterexample :
    readWiki c5Env "n1".toList = .ok (c5Node, WikiContent.payload (), []) := rfl

/-- Claim C5, amended.  In the recursive space traversal a failed child-list
fetch does set `children_error` and stops descent into that branch while the
sibling branch is processed normally (content resolved, children fetched and
recursed into); in the single-node read `_read_wiki` the same failure is only
logged and the node is returned with an empty `children` list and no error
annotation. -/
theorem wiki_children_fail_amended (env : WikiEnv γ) (sp : Str) (n1 n2 : NodeInfo)
    (cs1 : List NodeInfo) (e : Str) (c1 c2 : γ)
    (h1t : n1.objType = TYPE_DOCX) (h2t : n2.objType = TYPE_DOCX)
    (h1c : n1.hasChild = true) (h2c : n2.hasChild = true)
    (hw1 : env.wikiSpaceNodes sp (some n1.nodeToken) = .ok cs1)
    (hw2 : env.wikiSpaceNodes sp (some n2.nodeToken) = .error e)
    (hr1 : env.readDocx n1.objToken = .ok c1)
    (hr2 : env.readDocx n2.objToken = .ok c2) :
    readWikiNodesRecursive env sp [n1, n2] 0 =
      [OutNode.mk n1 (some c1) none (some (readWikiNodesRecursive env sp cs1 1)) none,
       OutNode.mk n2 (some c2) none none (some e)] := by
  show readWikiNodesGo env sp (5 + 1) [n1, n2]
      = [OutNode.mk n1 (some c1) none (some (readWikiNodesGo env sp 5 cs1)) none,
         OutNode.mk n2 (some c2) none none (some e)]
  rw [readWikiNodesGo]
  simp only [List.map_cons, List.map_nil, contentPair, h1t, h2t, h1c, h2c,
    exceptToPair, hr1, hr2, hw1, hw2]
  simp

/-- Witness for the amended C5 theorem: two rooted branches, the child listing
under `n2` raising while the one under `n1` returns no children. -/
theorem wiki_children_fail_amended_witness :
    readWikiNodesRecursive c5RecEnv "sp".toList
      [c5RecNode "n1".toList, c5RecNode "n2".toList] 0 =
      [OutNode.mk (c5RecNode "n1".toList) (some ()) none
        (some (readWikiNodesRecursive c5RecEnv "sp".toList [] 1)) none,
       OutNode.mk (c5RecNode "n2".toList) (some ()) none none (some "boom".toList)] :=
  wiki_children_fail_amended c5RecEnv "sp".toList
    (c5RecNode "n1".toList) (c5RecNode "n2".toList) [] "boom".toList () ()
    rfl rfl rfl rfl rfl rfl rfl rfl

/-- Claim C6, counterexample.  The top-level `read` does not return a
descriptive placeholder for the file and slides kinds: the `readers` dict has
no entry for them, so `read` raises (`Except.error`) with the
"unsupported document type" message. -/
theorem unsupported_kind_counterexample :
    read trivialReadEnv "sometoken".toList (some TYPE_FILE)
      = .error ("不支持的文档类型: ".toList ++ TYPE_FILE)
    ∧ read trivialReadEnv "sometoken".toList (some TYPE_SLIDES)
      = .error ("不支持的文档类型: ".toList ++ TYPE_SLIDES) :=
  ⟨rfl, rfl⟩

/-- Claim C6, amended.  Only the single-node wiki read maps an unreadable
`obj_type` to an explicit "unsupported kind" note; the recursive space
traversal leaves both `content` and `content_error` unset for such a node
(no error is raised in either case), while the top-level `read` raises an
"unsupported document type" error for the file and slides kinds. -/
theorem unsupported_kind_amended (envW : WikiEnv γ) (envR : ReadEnv γ)
    (tok tok2 sp : Str) (node : NodeInfo)
    (hinfo : envW.getWikiNodeInfo tok = .ok node)
    (ht1 : ¬ node.objType = TYPE_DOCX) (ht2 : ¬ node.objType = TYPE_DOC)
    (ht3 : ¬ node.objType = TYPE_SHEET) (ht4 : ¬ node.objType = TYPE_BITABLE)
    (hch : node.hasChild = false)
    (hhttp : "http".toList.isPrefixOf tok2 = false) :
    readWiki envW tok =
      .ok (node,
        WikiContent.note ("暂不支持读取类型 ".toList ++ node.objType ++ " 的内容".toList), [])
    ∧ readWikiNodesRecursive envW sp [node] 0 = [OutNode.mk node none none none none]
    ∧ read envR tok2 (some TYPE_FILE) = .error ("不支持的文档类型: ".toList ++ TYPE_FILE)
    ∧ read envR tok2 (some TYPE_SLIDES) = .error ("不支持的文档类型: ".toList ++ TYPE_SLIDES) := by
  refine ⟨?_, ?_, ?_, ?_⟩
  · simp only [readWiki, hinfo, hch]
    rw [if_neg (by simp [ht1, ht2]), if_neg ht3, if_neg ht4]
    simp
  · show readWikiNodesGo envW sp (5 + 1) [node] = _
    rw [readWikiNodesGo]
    simp only [List.map_cons, List.map_nil, contentPair, hch]
    rw [if_neg (by simp [ht1, ht2]), if_neg ht3, if_neg ht4]
    simp
  · simp only [read, readersLookup, hhttp]
    rw [if_neg (by decide), if_neg (by decide), if_neg (by decide), if_neg (by decide),
      if_neg (by decide)]
  · simp only [read, readersLookup, hhttp]
    rw [if_neg (by decide), if_neg (by decide), if_neg (by decide), if_neg (by decide),
      if_neg (by decide)]

/-- Witness for the amended C6 theorem at a slides-backed wiki node. -/
theorem unsupported_kind_amended_witness :
    readWiki slidesEnv "n1".toList =
      .ok (slidesNode,
        WikiContent.note ("暂不支持读取类型 ".toList ++ TYPE_SLIDES ++ " 的内容".toList), [])
    ∧ readWikiNodesRecursive slidesEnv "sp".toList [slidesNode] 0
      = [OutNode.mk slidesNode none none none none]
    ∧ read trivialReadEnv "tok".toList (some TYPE_FILE)
      = .error ("不支持的文档类型: ".toList ++ TYPE_FILE)
    ∧ read trivialReadEnv "tok".toList (some TYPE_SLIDES)
      = .error ("不支持的文档类型: ".toList ++ TYPE_SLIDES) :=
  unsupported_kind_amended slidesEnv trivialReadEnv "n1".toList "tok".toList "sp".toList
    slidesNode rfl (by decide) (by decide) (by decide) (by decide) rfl (by decide)

/-- Claim C7.  For a raw token (one not starting with "http"): if the prefix
table, in its fixed order docx_, doc_, sheet_, shtcn, base, bascn, wikcn, has
a first entry the token starts with or contains, `detect_type` returns that
entry's kind with the token unchanged and no warning; if no entry matches,
it returns the rich-document kind (docx) with the token unchanged and a
non-fatal warning — it never raises (the function is total). -/
theorem detect_type_resolution (token : Str)
    (hhttp : "http".toList.isPrefixOf token = false) :
    (∀ pre p ty post, TOKEN_PREFIXES = pre ++ (p, ty) :: post →
       tokenMatches p token = true →
       (∀ q ∈ pre, tokenMatches q.1 token = false) →
       detectType token = (ty, token, false))
    ∧ ((∀ q ∈ TOKEN_PREFIXES, tokenMatches q.1 token = false) →
       detectType token = (TYPE_DOCX, token, true)) := by
  constructor
  · intro pre p ty post htp hp hpre
    unfold detectType
    rw [hhttp]
    simp only [Bool.false_eq_true, if_false]
    rw [htp, scanPrefixes_first token pre p ty post hpre hp]
  · intro hall
    unfold detectType
    rw [hhttp]
    simp only [Bool.false_eq_true, if_false]
    rw [scanPrefixes_no_match token TOKEN_PREFIXES hall]

/-- Witness for C7: a sheet token matched by the fourth table entry, and an
unmatched token falling back to docx with a warning. -/
theorem detect_type_resolution_witness :
    detectType "shtcnABC".toList = (TYPE_SHEET, "shtcnABC".toList, false)
    ∧ detectType "zzz".toList = (TYPE_DOCX, "zzz".toList, true) :=
  ⟨(detect_type_resolution "shtcnABC".toList (by decide)).1
      [("docx_".toList, TYPE_DOCX), ("doc_".toList, TYPE_DOC), ("sheet_".toList, TYPE_SHEET)]
      "shtcn".toList TYPE_SHEET
      [("base".toList, TYPE_BITABLE), ("bascn".toList, TYPE_BITABLE),
       ("wikcn".toList, TYPE_WIKI)]
      (by decide) (by decide) (by decide),
   (detect_type_resolution "zzz".toList (by decide)).2 (by decide)⟩

/-- Claim C8.  Token extraction from a URL path: if the path parts contain a
marker (docx, doc, wiki, sheets, base, file) followed by at least one more
part — the parts before that first marker being marker-free — the extracted
token is the part immediately after it with any query string stripped; if no
part is a marker, the extracted token is the last non-empty part with any
query string stripped. -/
theorem extract_token_from_url_spec (url : Str) :
    (∀ pre m t rest, splitOnSlash (urlPath url) = pre ++ m :: t :: rest →
       isMarker m = true → (∀ p ∈ pre, isMarker p = false) →
       extractTokenFromUrl url = stripQuery t)
    ∧ (∀ pre t suf, splitOnSlash (urlPath url) = pre ++ t :: suf →
       (∀ p ∈ pre ++ t :: suf, isMarker p = false) →
       ¬ t = [] → (∀ s ∈ suf, s = []) →
       extractTokenFromUrl url = stripQuery t) := by
  constructor
  · intro pre m t rest hsplit hm hpre
    simp only [extractTokenFromUrl]
    rw [hsplit, findMarkerToken_skip pre m t rest hm hpre]
  · intro pre t suf hsplit hall ht hsuf
    simp only [extractTokenFromUrl]
    rw [hsplit, findMarkerToken_none _ hall]
    have hrev : (pre ++ t :: suf).reverse = suf.reverse ++ t :: pre.reverse := by
      simp [List.reverse_append]
    rw [hrev, find?_skip (fun p => !p.isEmpty) suf.reverse t pre.reverse
      (fun y hy => by rw [hsuf y (List.mem_reverse.mp hy)]; rfl)
      (by cases t with | nil => exact absurd rfl ht | cons a b => rfl)]

/-- Witness for C8: a docx URL with a query string, and a marker-free URL
falling back to the last non-empty path segment. -/
theorem extract_token_from_url_spec_witness :
    extractTokenFromUrl "https://ex.feishu.cn/docx/abc123?tab=x".toList = "abc123".toList
    ∧ extractTokenFromUrl "https://ex.feishu.cn/nomarker/last".toList = "last".toList :=
  ⟨(extract_token_from_url_spec "https://ex.feishu.cn/docx/abc123?tab=x".toList).1
      [[]] "docx".toList "abc123".toList [] (by decide) (by decide) (by decide),
   (extract_token_from_url_spec "https://ex.feishu.cn/nomarker/last".toList).2
      [[], "nomarker".toList] "last".toList [] (by decide) (by decide) (by decide)
      (by decide)⟩

/-- Claim C9.  Every node at every depth of a recursive wiki traversal result
satisfies the exclusivity invariant: `content` and `content_error` are never
both present, `children` and `children_error` are never both present, and the
same holds hereditarily inside every expanded child list. -/
theorem traversal_mutual_exclusion (env : WikiEnv γ) (sp : Str) (nodes : List NodeInfo)
    (depth : Nat) : ∀ x ∈ readWikiNodesRecursive env sp nodes depth, NodeExcl x :=
  go_excl env sp (6 - depth) nodes

/-- Witness for C9 at the deep-chain traversal result. -/
theorem traversal_mutual_exclusion_witness : NodeExcl (chainOutAux 6 0) :=
  traversal_mutual_exclusion chainEnv "sp".toList [chainNode 0] 0 (chainOutAux 6 0)
    (by rw [show readWikiNodesRecursive chainEnv "sp".toList [chainNode 0] 0
          = [chainOutAux 6 0] from rfl]
        exact List.mem_singleton.mpr rfl)

/-- Claim C10.  When `detect_type` is given a URL, the resulting kind comes
solely from prefix-classifying the extracted token: for any token with no
path-relevant characters and matching no table entry, both a `/sheets/` URL
and a `/wiki/` URL resolve to the rich-document kind (docx) with the bare
token and the unmatched-token warning — the path marker does not select the
kind. -/
theorem url_marker_not_used (t : Str)
    (hch : ∀ c ∈ t, ¬ c = '/' ∧ ¬ c = '?' ∧ ¬ c = '#')
    (hnm : ∀ q ∈ TOKEN_PREFIXES, tokenMatches q.1 t = false) :
    detectType ("https://example.feishu.cn/sheets/".toList ++ t) = (TYPE_DOCX, t, true)
    ∧ detectType ("https://example.feishu.cn/wiki/".toList ++ t) = (TYPE_DOCX, t, true) := by
  have htake : t.takeWhile (fun c => !(pathStopChar c)) = t :=
    takeWhile_all _ t (fun c hc => by
      simp [pathStopChar, (hch c hc).2.1, (hch c hc).2.2])
  have hstrip : stripQuery t = t :=
    takeWhile_all _ t (fun c hc => by simp [(hch c hc).2.1])
  constructor
  · have hurl : extractTokenFromUrl ("https://example.feishu.cn/sheets/".toList ++ t) = t := by
      simp only [extractTokenFromUrl]
      rw [show urlPath ("https://example.feishu.cn/sheets/".toList ++ t)
          = "/sheets/".toList ++ t.takeWhile (fun c => !(pathStopChar c)) from rfl]
      rw [htake]
      rw [show splitOnSlash ("/sheets/".toList ++ t)
          = [[], "sheets".toList] ++ splitOnSlash t from rfl]
      rw [splitOnSlash_no_slash t (fun c hc => (hch c hc).1)]
      rw [show ([[], "sheets".toList] ++ [t] : List Str)
          = [[]] ++ "sheets".toList :: t :: [] by simp]
      rw [findMarkerToken_skip [[]] "sheets".toList t [] (by decide) (by decide)]
      exact hstrip
    unfold detectType
    rw [show ("http".toList.isPrefixOf
        ("https://example.feishu.cn/sheets/".toList ++ t)) = true from rfl]
    simp only [if_true]
    rw [hurl, scanPrefixes_no_match t TOKEN_PREFIXES hnm]
  · have hurl : extractTokenFromUrl ("https://example.feishu.cn/wiki/".toList ++ t) = t := by
      simp only [extractTokenFromUrl]
      rw [show urlPath ("https://example.feishu.cn/wiki/".toList ++ t)
          = "/wiki/".toList ++ t.takeWhile (fun c => !(pathStopChar c)) from rfl]
      rw [htake]
      rw [show splitOnSlash ("/wiki/".toList ++ t)
          = [[], "wiki".toList] ++ splitOnSlash t from rfl]
      rw [splitOnSlash_no_slash t (fun c hc => (hch c hc).1)]
      rw [show ([[], "wiki".toList] ++ [t] : List Str)
          = [[]] ++ "wiki".toList :: t :: [] by simp]
      rw [findMarkerToken_skip [[]] "wiki".toList t [] (by decide) (by decide)]
      exact hstrip
    unfold detectType
    rw [show ("http".toList.isPrefixOf
        ("https://example.feishu.cn/wiki/".toList ++ t)) = true from rfl]
    simp only [if_true]
    rw [hurl, scanPrefixes_no_match t TOKEN_PREFIXES hnm]

/-- Witness for C10 at the unmatched token `T7`. -/
theorem url_marker_not_used_witness :
    detectType ("https://example.feishu.cn/sheets/".toList ++ "T7".toList)
      = (TYPE_DOCX, "T7".toList, true)
    ∧ detectType ("https://example.feishu.cn/wiki/".toList ++ "T7".toList)
      = (TYPE_DOCX, "T7".toList, true) :=
  url_marker_not_used "T7".toList (by decide) (by decide)

end FeishuReader
